import Mathlib

/-!
Shallow embedding of the two compatibility shims in GoodHatsLLC/swift-query:

* `Sources/SQLiteSnapshotShims/sqlite_snapshot_shims.c` — four stub
  implementations of the SQLite snapshot API, compiled when SQLite lacks
  SQLITE_ENABLE_SNAPSHOT.  Each stub ignores its arguments and returns
  the constant `SQLITE_ERROR` (or nothing, for the free function).
* `Sources/SwiftThreadingShim/SwiftThreadingShim.cpp` — the function
  `swift::threading::fatal`, which writes a fixed header, the formatted
  message, and a newline to the process error stream, then aborts.

Pointers are modelled as machine addresses (`Nat`, with 0 for NULL).
The observable process state carries the memory, the bytes written to the
error stream, and the list of live heap allocations, so that frame
conditions ("writes nothing", "allocates nothing") are expressible.
Every function returns an `Outcome` recording whether it returned
normally, aborted the process, or hit a memory fault / undefined
behaviour.
-/

namespace SwiftQuery

/-- A C pointer value, modelled as a machine address; `0` models NULL. -/
abbrev Ptr := Nat

/-- The SQLite generic error code `SQLITE_ERROR` (value 1 in sqlite3.h). -/
def SQLITE_ERROR : Int := 1

/-- The SQLite success code `SQLITE_OK` (value 0 in sqlite3.h). -/
def SQLITE_OK : Int := 0

/-- Observable process state: memory contents, bytes appended to the
error stream so far, and the set of live heap allocations. -/
structure State where
  mem : Ptr → Nat
  stderrOut : String
  allocated : List Ptr

/-- Result of running a C function on a `State`: a normal return with a
value and a post-state, an abnormal process termination (abort) with the
final state, or a memory fault / undefined behaviour. -/
inductive Outcome (α : Type) where
  | ok (val : α) (after : State)
  | aborted (after : State)
  | fault

/-- The value returned to the caller, when the call returned normally. -/
def Outcome.retVal : Outcome α → Option α
  | .ok v _ => some v
  | _ => none

/-- The process state after the call, when the process did not fault. -/
def Outcome.stateAfter : Outcome α → Option State
  | .ok _ s => some s
  | .aborted s => some s
  | .fault => none

/-- Whether the call returned normally to its caller. -/
def Outcome.returnedNormally : Outcome α → Bool
  | .ok _ _ => true
  | _ => false

/-- Embedding of `sqlite3_snapshot_open` (sqlite_snapshot_shims.c,
lines 7–12): casts each argument to void and returns `SQLITE_ERROR`,
touching no state. -/
def sqlite3_snapshot_open (db zSchema pSnapshot : Ptr) (s : State) :
    Outcome Int :=
  Outcome.ok SQLITE_ERROR s

/-- Embedding of `sqlite3_snapshot_get` (sqlite_snapshot_shims.c,
lines 14–19): casts each argument to void and returns `SQLITE_ERROR`,
touching no state; in particular it never writes through `ppSnapshot`. -/
def sqlite3_snapshot_get (db zSchema ppSnapshot : Ptr) (s : State) :
    Outcome Int :=
  Outcome.ok SQLITE_ERROR s

/-- Embedding of `sqlite3_snapshot_free` (sqlite_snapshot_shims.c,
lines 21–23): casts its argument to void and returns, touching no state. -/
def sqlite3_snapshot_free (pSnapshot : Ptr) (s : State) : Outcome Unit :=
  Outcome.ok () s

/-- Embedding of `sqlite3_snapshot_cmp` (sqlite_snapshot_shims.c,
lines 25–29): casts both arguments to void and returns `SQLITE_ERROR`,
touching no state. -/
def sqlite3_snapshot_cmp (p1 p2 : Ptr) (s : State) : Outcome Int :=
  Outcome.ok SQLITE_ERROR s

/-- A variadic argument passed to the fatal handler, as in C varargs. -/
inductive CArg where
  | intArg (i : Int)
  | natArg (n : Nat)
  | strArg (str : String)
  | charArg (c : Char)

/-- Modelled from the spec: standard C `vfprintf` placeholder
substitution (the C library routine called by the shim, not part of this
repository).  Walks the format string; `%d`/`%i`, `%u`, `%s`, `%c`
consume one argument of the matching kind, `%%` renders a percent sign,
other characters are copied verbatim.  A conversion with a missing or
mismatched argument is undefined behaviour in C and yields `none`. -/
def formatPrintf : List Char → List CArg → Option String
  | [], _ => some ""
  | '%' :: '%' :: rest, args =>
      (formatPrintf rest args).map (fun t => "%" ++ t)
  | '%' :: 'd' :: rest, CArg.intArg i :: args =>
      (formatPrintf rest args).map (fun t => toString i ++ t)
  | '%' :: 'i' :: rest, CArg.intArg i :: args =>
      (formatPrintf rest args).map (fun t => toString i ++ t)
  | '%' :: 'u' :: rest, CArg.natArg n :: args =>
      (formatPrintf rest args).map (fun t => toString n ++ t)
  | '%' :: 's' :: rest, CArg.strArg str :: args =>
      (formatPrintf rest args).map (fun t => str ++ t)
  | '%' :: 'c' :: rest, CArg.charArg c :: args =>
      (formatPrintf rest args).map (fun t => String.mk [c] ++ t)
  | '%' :: _, _ => none
  | c :: rest, args =>
      (formatPrintf rest args).map (fun t => String.mk [c] ++ t)

/-- The fixed header the fatal shim prints before the message
(SwiftThreadingShim.cpp, line 13). -/
def fatalHeader : String := "SwiftThreading fatal: "

namespace swift
namespace threading

/-- Embedding of `swift::threading::fatal` (SwiftThreadingShim.cpp,
lines 12–22): appends the fixed header, then the message formatted with
its variadic arguments, then a newline to the error stream, and calls
`std::abort()`, so the call never returns normally.  A format/argument
mismatch is undefined behaviour (inside vfprintf) and is modelled as a
fault. -/
def fatal (message : String) (args : List CArg) (s : State) :
    Outcome Unit :=
  match formatPrintf message.data args with
  | some body =>
      Outcome.aborted
        { s with stderrOut := s.stderrOut ++ fatalHeader ++ body ++ "\n" }
  | none => Outcome.fault

end threading
end swift

/-- A concrete process state used to instantiate universally quantified
theorems. -/
def initState : State where
  mem := fun _ => 0
  stderrOut := ""
  allocated := []

end SwiftQuery

namespace SwiftQuery

/-- Helper: rendering of the concrete format string used in the spec
scenario. -/
theorem formatPrintf_badState42 :
    formatPrintf ['b', 'a', 'd', ' ', 's', 't', 'a', 't', 'e', ' ', '%', 'd']
      [CArg.intArg 42] = some "bad state 42" := by decide

/-- Helper: the concatenated header, body and newline of the spec
scenario form one literal line. -/
theorem fatalHeader_badState42_line :
    fatalHeader ++ ("bad state 42" ++ "\n") =
      "SwiftThreading fatal: bad state 42\n" := by decide

/-- C1: for every connection handle, schema name and output slot,
`sqlite3_snapshot_open` and `sqlite3_snapshot_get` return `SQLITE_ERROR`
and leave the whole state — in particular the memory cell of the
caller's output slot — unchanged. -/
theorem snapshot_open_get_error_and_output_untouched
    (db zSchema out : Ptr) (s : State) :
    sqlite3_snapshot_open db zSchema out s = Outcome.ok SQLITE_ERROR s ∧
    sqlite3_snapshot_get db zSchema out s = Outcome.ok SQLITE_ERROR s ∧
    ((sqlite3_snapshot_open db zSchema out s).stateAfter).map
        (fun st => st.mem out) = some (s.mem out) ∧
    ((sqlite3_snapshot_get db zSchema out s).stateAfter).map
        (fun st => st.mem out) = some (s.mem out) :=
  ⟨rfl, rfl, rfl, rfl⟩

/-- C2: for every format string whose placeholders match its argument
list, `swift::threading::fatal` appends to the error stream, in order,
the fixed header, the formatted message and a newline, and the call
never returns normally: the process terminates abnormally (abort). -/
theorem fatal_writes_header_message_newline_then_aborts
    (message : String) (args : List CArg) (s : State) (body : String)
    (h : formatPrintf message.data args = some body) :
    swift.threading.fatal message args s =
      Outcome.aborted
        { s with stderrOut := s.stderrOut ++ fatalHeader ++ body ++ "\n" } := by
  simp only [swift.threading.fatal, h]

/-- Witness for C2 at a concrete format string, argument list and
state. -/
theorem fatal_writes_header_message_newline_then_aborts_witness :
    swift.threading.fatal "stopping %s now" [CArg.strArg "right"] initState =
      Outcome.aborted
        { initState with
            stderrOut :=
              initState.stderrOut ++ fatalHeader ++ "stopping right now" ++ "\n" } :=
  fatal_writes_header_message_newline_then_aborts
    "stopping %s now" [CArg.strArg "right"] initState "stopping right now"
    (by decide)

/-- C3: for every pair of snapshot handles, including the NULL handle
`0` and arbitrary (dangling or uninitialized) handle values,
`sqlite3_snapshot_cmp` returns `SQLITE_ERROR` and leaves the state
unchanged. -/
theorem snapshot_cmp_always_error (p1 p2 : Ptr) (s : State) :
    sqlite3_snapshot_cmp p1 p2 s = Outcome.ok SQLITE_ERROR s ∧
    sqlite3_snapshot_cmp 0 0 s = Outcome.ok SQLITE_ERROR s :=
  ⟨rfl, rfl⟩

/-- C4: for every snapshot handle, including the NULL handle `0` (the
value a handle keeps after a failed `sqlite3_snapshot_get`),
`sqlite3_snapshot_free` returns normally (no crash) with the state
wholly unchanged: a no-op. -/
theorem snapshot_free_noop (p : Ptr) (s : State) :
    sqlite3_snapshot_free p s = Outcome.ok () s ∧
    sqlite3_snapshot_free 0 s = Outcome.ok () s :=
  ⟨rfl, rfl⟩

/-- C5: the fatal handler substitutes variadic arguments by standard
printf semantics; with format string "bad state %d" and argument 42 it
appends exactly "SwiftThreading fatal: bad state 42\n" to the error
stream and then the process aborts. -/
theorem fatal_bad_state_42_output (s : State) :
    swift.threading.fatal "bad state %d" [CArg.intArg 42] s =
      Outcome.aborted
        { s with
            stderrOut := s.stderrOut ++ "SwiftThreading fatal: bad state 42\n" } := by
  simp only [swift.threading.fatal, formatPrintf_badState42,
    String.append_assoc, fatalHeader_badState42_line]

/-- C6: for all inputs, the status returned by `sqlite3_snapshot_cmp`
equals the status returned by `sqlite3_snapshot_open` and by
`sqlite3_snapshot_get`: all three return the one generic error status
`SQLITE_ERROR`. -/
theorem snapshot_stub_statuses_agree (db zSchema pS ppS p1 p2 : Ptr)
    (s1 s2 s3 : State) :
    (sqlite3_snapshot_cmp p1 p2 s3).retVal =
      (sqlite3_snapshot_open db zSchema pS s1).retVal ∧
    (sqlite3_snapshot_cmp p1 p2 s3).retVal =
      (sqlite3_snapshot_get db zSchema ppS s2).retVal ∧
    (sqlite3_snapshot_cmp p1 p2 s3).retVal = some SQLITE_ERROR :=
  ⟨rfl, rfl, rfl⟩

/-- C7: for every input, `sqlite3_snapshot_open` writes nothing to the
error stream and allocates nothing, and `sqlite3_snapshot_get` allocates
nothing and leaves all memory — hence the output handle — unpopulated;
the only observable effect of either is the returned `SQLITE_ERROR`. -/
theorem snapshot_open_get_no_io_no_alloc (db zSchema pS ppS : Ptr)
    (s : State) :
    ((sqlite3_snapshot_open db zSchema pS s).stateAfter).map
        State.stderrOut = some s.stderrOut ∧
    ((sqlite3_snapshot_open db zSchema pS s).stateAfter).map
        State.allocated = some s.allocated ∧
    ((sqlite3_snapshot_get db zSchema ppS s).stateAfter).map
        State.allocated = some s.allocated ∧
    ((sqlite3_snapshot_get db zSchema ppS s).stateAfter).map
        State.mem = some s.mem ∧
    (sqlite3_snapshot_open db zSchema pS s).retVal = some SQLITE_ERROR ∧
    (sqlite3_snapshot_get db zSchema ppS s).retVal = some SQLITE_ERROR :=
  ⟨rfl, rfl, rfl, rfl, rfl, rfl⟩

/-- C8: each snapshot stub is stateless and deterministic: its returned
value is the same from any two prior states `s`, `t` (any call history),
and it writes no shared mutable data (the post-state is the pre-state). -/
theorem snapshot_stubs_stateless_deterministic
    (db zSchema pS ppS p1 p2 p : Ptr) (s t : State) :
    (sqlite3_snapshot_open db zSchema pS s).retVal =
      (sqlite3_snapshot_open db zSchema pS t).retVal ∧
    (sqlite3_snapshot_get db zSchema ppS s).retVal =
      (sqlite3_snapshot_get db zSchema ppS t).retVal ∧
    (sqlite3_snapshot_free p s).retVal = (sqlite3_snapshot_free p t).retVal ∧
    (sqlite3_snapshot_cmp p1 p2 s).retVal =
      (sqlite3_snapshot_cmp p1 p2 t).retVal ∧
    (sqlite3_snapshot_open db zSchema pS s).stateAfter = some s ∧
    (sqlite3_snapshot_get db zSchema ppS s).stateAfter = some s ∧
    (sqlite3_snapshot_free p s).stateAfter = some s ∧
    (sqlite3_snapshot_cmp p1 p2 s).stateAfter = some s :=
  ⟨rfl, rfl, rfl, rfl, rfl, rfl, rfl, rfl⟩

/-- C9: no snapshot stub dereferences a pointer argument: with arbitrary
pointer values (NULL `0` included, via the universally quantified
`Ptr` arguments) no stub faults, and each stub's returned value is
independent of the entire memory contents. -/
theorem snapshot_stubs_never_deref (db zSchema pS ppS p1 p2 p : Ptr)
    (s : State) (m m2 : Ptr → Nat) :
    sqlite3_snapshot_open db zSchema pS s ≠ Outcome.fault ∧
    sqlite3_snapshot_get db zSchema ppS s ≠ Outcome.fault ∧
    sqlite3_snapshot_free p s ≠ Outcome.fault ∧
    sqlite3_snapshot_cmp p1 p2 s ≠ Outcome.fault ∧
    (sqlite3_snapshot_open db zSchema pS { s with mem := m }).retVal =
      (sqlite3_snapshot_open db zSchema pS { s with mem := m2 }).retVal ∧
    (sqlite3_snapshot_get db zSchema ppS { s with mem := m }).retVal =
      (sqlite3_snapshot_get db zSchema ppS { s with mem := m2 }).retVal ∧
    (sqlite3_snapshot_cmp p1 p2 { s with mem := m }).retVal =
      (sqlite3_snapshot_cmp p1 p2 { s with mem := m2 }).retVal :=
  ⟨fun h => Outcome.noConfusion h, fun h => Outcome.noConfusion h,
   fun h => Outcome.noConfusion h, fun h => Outcome.noConfusion h,
   rfl, rfl, rfl⟩

/-- C10: every call to a snapshot stub terminates and returns normally
to its caller, for all inputs; the fatal handler, in contrast, never
returns normally. -/
theorem snapshot_stubs_terminate_normally (db zSchema pS ppS p1 p2 p : Ptr)
    (s : State) (message : String) (args : List CArg) :
    (sqlite3_snapshot_open db zSchema pS s).returnedNormally = true ∧
    (sqlite3_snapshot_get db zSchema ppS s).returnedNormally = true ∧
    (sqlite3_snapshot_free p s).returnedNormally = true ∧
    (sqlite3_snapshot_cmp p1 p2 s).returnedNormally = true ∧
    (swift.threading.fatal message args s).returnedNormally = false := by
  refine ⟨rfl, rfl, rfl, rfl, ?_⟩
  cases hf : formatPrintf message.data args <;>
    simp [swift.threading.fatal, hf, Outcome.returnedNormally]

end SwiftQuery
